import Mathlib

/-!
Verification of the structured-generation client and spaced-repetition model
of the Kairon AI learning platform (React/TypeScript).

The embedded code comes from `src/services/geminiService.ts` (the structured
generation client: `handleApiError`, `generateWithSchema`, the feature entry
points `generateFlashcards`, `generateMCQs`, `performSemanticSearch`,
`generateConceptMapData`, `generateConceptMapForTopic`), from
`src/components/features/SemanticSearch.tsx` (`updateSearchHistory`,
`runSearch`), and from `src/types.ts` (the `SRFlashcard` shape). The remote
Gemini backend is the environment: each embedded call takes the backend's
reply as an explicit argument. The platform JSON decoder (`JSON.parse`) is
modelled by an executable recursive-descent parser over integers-only JSON.
-/

/-- A decoded JSON value, as `JSON.parse` produces one. Numbers are modelled
as integers: every numeric payload the client's claims exercise is integral
(the declared schemas use only STRING/INTEGER leaves). -/
inductive Json where
  | null : Json
  | bool (b : Bool) : Json
  | num (n : Int) : Json
  | str (s : String) : Json
  | arr (elems : List Json) : Json
  | obj (fields : List (String × Json)) : Json
deriving Repr

/-- JavaScript truthiness of a decoded JSON value (used by `result || []` and
`result?.field || []` in the service code): `null`, `false`, `0` and the empty
string are falsy; every array and object is truthy. -/
def Json.isTruthy : Json → Bool
  | .null => false
  | .bool b => b
  | .num n => n != 0
  | .str s => s != ""
  | .arr _ => true
  | .obj _ => true

/-- `Array.isArray` on a decoded JSON value. -/
def Json.isArr : Json → Bool
  | .arr _ => true
  | _ => false

/-- Property access `v?.name` on a decoded JSON value: only objects carry
fields (on any other value, including `null`, the access yields `undefined`,
here `none`); with duplicate keys `JSON.parse` keeps the last one, so the last
binding wins. -/
def Json.getField : Json → String → Option Json
  | .obj fields, name =>
      (fields.filter (fun p => p.1 = name)).getLast?.map (fun p => p.2)
  | _, _ => none

/-- The JSON whitespace characters (also the ones `String.prototype.trim`
strips in every response text the claims exercise). -/
def jsonWs (c : Char) : Bool :=
  c = ' ' || c = '\t' || c = '\n' || c = '\r'

/-- Drop leading JSON whitespace. -/
def skipWs : List Char → List Char
  | [] => []
  | c :: cs => if jsonWs c then skipWs cs else c :: cs

/-- Model of `String.prototype.trim`: strip leading and trailing whitespace
(the ASCII whitespace every response the claims exercise uses). -/
def jsTrim (s : String) : String :=
  String.mk ((skipWs (skipWs s.data).reverse).reverse)

/-- The character denoted by a JSON backslash escape (`\uXXXX` escapes are out
of scope for this model; a response using one fails to decode). -/
def escapeChar : Char → Option Char
  | '"' => some '"'
  | '\\' => some '\\'
  | '/' => some '/'
  | 'b' => some (Char.ofNat 8)
  | 'f' => some (Char.ofNat 12)
  | 'n' => some '\n'
  | 'r' => some '\r'
  | 't' => some '\t'
  | _ => none

/-- Parse the body of a JSON string literal after its opening quote: the
decoded characters and the input after the closing quote. -/
def parseStringBody : List Char → Option (List Char × List Char)
  | [] => none
  | '"' :: cs => some ([], cs)
  | '\\' :: cs =>
      match cs with
      | [] => none
      | e :: cs2 =>
          match escapeChar e with
          | none => none
          | some c =>
              match parseStringBody cs2 with
              | none => none
              | some (body, rest) => some (c :: body, rest)
  | c :: cs =>
      match parseStringBody cs with
      | none => none
      | some (body, rest) => some (c :: body, rest)

/-- Split a maximal run of decimal digits off the front of the input. -/
def takeDigits : List Char → List Char × List Char
  | [] => ([], [])
  | c :: cs =>
      if c.isDigit then
        let p := takeDigits cs
        (c :: p.1, p.2)
      else ([], c :: cs)

/-- The natural number a run of decimal digits denotes. -/
def digitsToNat (ds : List Char) : Nat :=
  ds.foldl (fun acc c => acc * 10 + (c.toNat - 48)) 0

mutual

/-- Fueled recursive-descent parser for one JSON value; returns the value and
the unconsumed input. The fuel only bounds recursion depth. -/
def parseVal : Nat → List Char → Option (Json × List Char)
  | 0, _ => none
  | fuel + 1, cs =>
      match skipWs cs with
      | [] => none
      | '{' :: rest =>
          match skipWs rest with
          | '}' :: rest2 => some (.obj [], rest2)
          | rest1 =>
              match parseMembers fuel rest1 with
              | none => none
              | some (fields, rest2) =>
                  match skipWs rest2 with
                  | '}' :: rest3 => some (.obj fields, rest3)
                  | _ => none
      | '[' :: rest =>
          match skipWs rest with
          | ']' :: rest2 => some (.arr [], rest2)
          | rest1 =>
              match parseElems fuel rest1 with
              | none => none
              | some (elems, rest2) =>
                  match skipWs rest2 with
                  | ']' :: rest3 => some (.arr elems, rest3)
                  | _ => none
      | '"' :: rest =>
          match parseStringBody rest with
          | none => none
          | some (body, rest2) => some (.str (String.mk body), rest2)
      | 't' :: 'r' :: 'u' :: 'e' :: rest => some (.bool true, rest)
      | 'f' :: 'a' :: 'l' :: 's' :: 'e' :: rest => some (.bool false, rest)
      | 'n' :: 'u' :: 'l' :: 'l' :: rest => some (.null, rest)
      | '-' :: rest =>
          match takeDigits rest with
          | ([], _) => none
          | (ds, rest2) => some (.num (-(digitsToNat ds : Int)), rest2)
      | c :: rest =>
          if c.isDigit then
            match takeDigits (c :: rest) with
            | (ds, rest2) => some (.num (digitsToNat ds), rest2)
          else none

/-- Parse a nonempty comma-separated list of JSON array elements. -/
def parseElems : Nat → List Char → Option (List Json × List Char)
  | 0, _ => none
  | fuel + 1, cs =>
      match parseVal fuel cs with
      | none => none
      | some (v, rest) =>
          match skipWs rest with
          | ',' :: rest2 =>
              match parseElems fuel rest2 with
              | none => none
              | some (vs, rest3) => some (v :: vs, rest3)
          | rest2 => some ([v], rest2)

/-- Parse a nonempty comma-separated list of JSON object members. -/
def parseMembers : Nat → List Char → Option (List (String × Json) × List Char)
  | 0, _ => none
  | fuel + 1, cs =>
      match skipWs cs with
      | '"' :: rest =>
          match parseStringBody rest with
          | none => none
          | some (keyBody, rest2) =>
              match skipWs rest2 with
              | ':' :: rest3 =>
                  match parseVal fuel rest3 with
                  | none => none
                  | some (v, rest4) =>
                      match skipWs rest4 with
                      | ',' :: rest5 =>
                          match parseMembers fuel rest5 with
                          | none => none
                          | some (fields, rest6) =>
                              some ((String.mk keyBody, v) :: fields, rest6)
                      | rest5 => some ([(String.mk keyBody, v)], rest5)
              | _ => none
      | _ => none

end

/-- Model of the platform JSON decoder `JSON.parse`: one JSON value followed
only by whitespace, or failure. -/
def parseJson (s : String) : Option Json :=
  match parseVal (2 * s.length + 2) s.data with
  | some (v, rest) => if skipWs rest = [] then some v else none
  | none => none

/-! ## The response-schema language and the declared schemas

`geminiService.ts` builds each request's `responseSchema` from the
`Type.OBJECT / Type.ARRAY / Type.STRING / Type.INTEGER` nodes of
`@google/genai`, with `properties` and `required` lists on objects.
`description` annotations carry no structure and are dropped. -/

/-- The recursive output-shape constraint attached to a structured request. -/
inductive Schema where
  | string : Schema
  | integer : Schema
  | array (items : Schema) : Schema
  | object (properties : List (String × Schema)) (required : List String) : Schema

/-- The schema `generateFlashcards` declares: an array of
`{question, answer}` string objects, both fields required. -/
def flashcardSchema : Schema :=
  .array (.object [("question", .string), ("answer", .string)]
    ["question", "answer"])

/-- The schema `generateMCQs` declares: an array of
`{question, options, correctAnswer, explanation}` objects whose `options` is a
string array (of unconstrained length), all four fields required. -/
def mcqSchema : Schema :=
  .array (.object
    [("question", .string), ("options", .array .string),
     ("correctAnswer", .string), ("explanation", .string)]
    ["question", "options", "correctAnswer", "explanation"])

/-- The schema `performSemanticSearch` declares: an object with a required
`snippets` string-array field. -/
def searchSchema : Schema :=
  .object [("snippets", .array .string)] ["snippets"]

/-- `conceptMapSchema` from the source: an object with required `nodes` and
`links` arrays of `{id, group}` and `{source, target, value}` objects. -/
def conceptMapSchema : Schema :=
  .object
    [("nodes", .array (.object [("id", .string), ("group", .integer)]
        ["id", "group"])),
     ("links", .array (.object
        [("source", .string), ("target", .string), ("value", .integer)]
        ["source", "target", "value"]))]
    ["nodes", "links"]

mutual

/-- Nesting depth of a JSON value (an executable recursion measure). -/
def Json.depth : Json → Nat
  | .null => 1
  | .bool _ => 1
  | .num _ => 1
  | .str _ => 1
  | .arr xs => Json.depthList xs + 1
  | .obj fields => Json.depthFields fields + 1

/-- Greatest depth of a list of JSON values. -/
def Json.depthList : List Json → Nat
  | [] => 0
  | v :: vs => max (Json.depth v) (Json.depthList vs)

/-- Greatest depth of a list of JSON object members. -/
def Json.depthFields : List (String × Json) → Nat
  | [] => 0
  | p :: ps => max (Json.depth p.2) (Json.depthFields ps)

end

/-- Fueled worker for `conformsTo`; the fuel only bounds recursion depth. -/
def conformsToFuel : Nat → Json → Schema → Bool
  | 0, _, _ => false
  | fuel + 1, v, s =>
      match v, s with
      | .str _, .string => true
      | .num _, .integer => true
      | .arr xs, .array items => xs.all (fun w => conformsToFuel fuel w items)
      | .obj fields, .object props required =>
          required.all (fun name => fields.any (fun p => p.1 == name)) &&
          fields.all (fun p =>
            match props.find? (fun q => q.1 == p.1) with
            | some q => conformsToFuel fuel p.2 q.2
            | none => true)
      | _, _ => false

/-- Modelled from the spec: "a value satisfying the declared shape" — the
client itself never checks this (see `generateWithSchema` below), so the
check is reconstructed from §3/§6: a string/integer leaf matches its kind,
an array matches when every element matches the item schema, an object
matches when every required field is present and every field that the
schema's `properties` list mentions matches its sub-schema. -/
def conformsTo (v : Json) (s : Schema) : Bool :=
  conformsToFuel v.depth v s

/-! ## The structured-generation client (`src/services/geminiService.ts`)

The remote call `ai.models.generateContent` is the environment: its outcome
is the `BackendOutcome` argument of each embedded function. The `model` id
and the prompt text only shape the outbound request that this outcome
answers, so they are not repeated here; the declared schema is kept as an
argument because the spec speaks about it (it, too, only travels outward —
the client never consults it when decoding). -/

/-- Outcome of one `ai.models.generateContent` call: the response text, or a
thrown value — `some message` when the thrown value is an `Error` (carrying
its message), `none` for any other thrown value. -/
inductive BackendOutcome where
  | success (text : String) : BackendOutcome
  | failure (errorMessage : Option String) : BackendOutcome

/-- The two classified failures of the client, one per reject site of
`generateWithSchema`: a backend failure carries the message `handleApiError`
builds; a malformed response carries the user-facing message and the raw
(trimmed) response text that the code passes to `console.error` — kept here
so that what is logged and what is shown can be told apart. -/
inductive GenError where
  | backendError (message : String) : GenError
  | malformedResponse (message : String) (rawText : String) : GenError
deriving Repr, DecidableEq

/-- The message a `GenError` surfaces to the caller (`error.message`). -/
def GenError.message : GenError → String
  | .backendError m => m
  | .malformedResponse m _ => m

/-- `handleApiError` from the source: the centralized handler rejects with
`API Error during <context>: <message>` when the thrown value is an `Error`,
and with an unknown-error message naming the context otherwise. -/
def handleApiError (error : Option String) (context : String) : GenError :=
  match error with
  | some msg => .backendError ("API Error during " ++ context ++ ": " ++ msg)
  | none =>
      .backendError ("An unknown error occurred during " ++ context ++ ".")

set_option linter.unusedVariables false in
/-- `generateWithSchema` from the source: on a backend failure, reject via
`handleApiError`; on success, trim the response text, then `JSON.parse` it —
returning the decoded value as `T` without consulting `schema` (the cast
`as T` checks nothing) — and on a parse failure reject with the
invalid-format message for the context, after logging the raw trimmed text.
(The linter option only acknowledges that `schema` is deliberately unused:
that is the very behaviour under scrutiny.) -/
def generateWithSchema (schema : Schema) (context : String)
    (response : BackendOutcome) : Except GenError Json :=
  match response with
  | .failure error => .error (handleApiError error context)
  | .success text =>
      let jsonText := jsTrim text
      match parseJson jsonText with
      | some v => .ok v
      | none => .error (.malformedResponse
          ("The API returned an invalid format for " ++ context ++
            ". Please try again.")
          jsonText)

/-- The unwrapping `generateFlashcards` and `generateMCQs` apply to the
decoded value: `Array.isArray(result) ? result : (result?.<field> || [])`. -/
def unwrapListResult (result : Json) (field : String) : Json :=
  if result.isArr then result
  else
    match result.getField field with
    | some v => if v.isTruthy then v else .arr []
    | none => .arr []

/-- `generateFlashcards` from the source: a structured call with
`flashcardSchema` in context `flashcard generation`, whose decoded result is
returned directly when it is an array and unwrapped through the `flashcards`
field (empty array as fallback) otherwise. -/
def generateFlashcards (response : BackendOutcome) : Except GenError Json :=
  match generateWithSchema flashcardSchema "flashcard generation" response with
  | .error e => .error e
  | .ok result => .ok (unwrapListResult result "flashcards")

/-- `generateMCQs` from the source: a structured call with `mcqSchema` in
context `MCQ generation` (the difficulty level only varies the prompt),
unwrapped through the `mcqs` field exactly like `generateFlashcards`. -/
def generateMCQs (response : BackendOutcome) : Except GenError Json :=
  match generateWithSchema mcqSchema "MCQ generation" response with
  | .error e => .error e
  | .ok result => .ok (unwrapListResult result "mcqs")

/-- `performSemanticSearch` from the source: a structured call with
`searchSchema` in context `semantic search`; the decoded result is reduced to
`result?.snippets || []` — with no array branch, unlike the flashcard/MCQ
unwrapping. -/
def performSemanticSearch (response : BackendOutcome) :
    Except GenError Json :=
  match generateWithSchema searchSchema "semantic search" response with
  | .error e => .error e
  | .ok result =>
      .ok (match result.getField "snippets" with
        | some v => if v.isTruthy then v else .arr []
        | none => .arr [])

/-- The default `{ nodes: [], links: [] }` of the two concept-map calls. -/
def emptyConceptMap : Json :=
  .obj [("nodes", .arr []), ("links", .arr [])]

/-- `generateConceptMapData` from the source: a structured call with
`conceptMapSchema` in context `concept map generation`, returning
`result || { nodes: [], links: [] }`. -/
def generateConceptMapData (response : BackendOutcome) :
    Except GenError Json :=
  match generateWithSchema conceptMapSchema "concept map generation"
      response with
  | .error e => .error e
  | .ok result => .ok (if result.isTruthy then result else emptyConceptMap)

/-- `generateConceptMapForTopic` from the source: as
`generateConceptMapData`, but the context names the topic:
`concept map generation for topic "<topic>"`. -/
def generateConceptMapForTopic (topic : String) (response : BackendOutcome) :
    Except GenError Json :=
  match generateWithSchema conceptMapSchema
      ("concept map generation for topic \"" ++ topic ++ "\"") response with
  | .error e => .error e
  | .ok result => .ok (if result.isTruthy then result else emptyConceptMap)

/-! ## The semantic-search feature (`src/components/features/SemanticSearch.tsx`) -/

/-- `updateSearchHistory` from the source: put the new query in front, keep
the previous entries whose lower-cased text differs from the new query's, and
cut to the first 10 (`[newQuery, ...searchHistory.filter(...)].slice(0, 10)`).
The same list is then written to `localStorage` under the fixed key. -/
def updateSearchHistory (newQuery : String) (searchHistory : List String) :
    List String :=
  (newQuery ::
    searchHistory.filter (fun item => item.toLower ≠ newQuery.toLower)).take 10

/-- The component state `runSearch` reads and writes: the React state fields
of `SemanticSearch`, the value stored under `semanticSearchHistory` in
`localStorage` (`none` when the key is absent), and the notification messages
the app context accumulates. -/
structure SearchState where
  query : String
  isLoading : Bool
  topK : Nat
  results : Json
  searchAttempted : Bool
  searchHistory : List String
  storedHistory : Option (List String)
  notifications : List String

/-- The component's initial state: `useState` defaults (query `''`,
`isLoading` false, `topK` 4, `results` `[]`, `searchAttempted` false,
`searchHistory` `[]`), nothing stored, no notification yet. -/
def initialSearchState : SearchState :=
  { query := "", isLoading := false, topK := 4, results := .arr [],
    searchAttempted := false, searchHistory := [], storedHistory := none,
    notifications := [] }

/-- `runSearch` from the source, one full execution of the callback on state
`s`: bail out with an info notification when no text is ingested
(`ingestedText` is `string | null`; `!ingestedText` also catches the empty
string) or the query is blank; otherwise set the loading/attempted flags,
clear the results, update and persist the search history — before the
backend call — then await `performSemanticSearch` with the given backend
outcome: on success store the results, on failure add the error's message as
a notification; either way clear the loading flag. -/
def runSearch (ingestedText : Option String) (response : BackendOutcome)
    (currentQuery : String) (s : SearchState) : SearchState :=
  if ingestedText.getD "" = "" then
    { s with notifications :=
        s.notifications ++ ["Please ingest some text first."] }
  else if jsTrim currentQuery = "" then
    { s with notifications :=
        s.notifications ++ ["Please enter a search query."] }
  else
    let s1 := { s with isLoading := true, searchAttempted := true,
                       results := Json.arr [] }
    let newHistory := updateSearchHistory currentQuery s1.searchHistory
    let s2 := { s1 with searchHistory := newHistory,
                        storedHistory := some newHistory }
    match performSemanticSearch response with
    | .ok v => { s2 with results := v, isLoading := false }
    | .error e =>
        { s2 with notifications := s2.notifications ++ [e.message],
                  isLoading := false }

/-! ## The spaced-repetition scheduler

`src/types.ts` declares the scheduled-card shape (`SRFlashcard`: a flashcard
with `id`, `easeFactor`, `interval` in days, and a due date), but no review
logic exists anywhere in the reviewed source — spec §2 and §9 say so
explicitly. The operation below is therefore modelled from the spec. -/

/-- The closed set of recall grades of spec §4.2. -/
inductive Grade where
  | again : Grade
  | hard : Grade
  | good : Grade
  | easy : Grade

/-- `SRFlashcard` from `src/types.ts`, with `easeFactor` as a rational and
the ISO due-date string replaced by an integer day number (`dueDay`), since
only whole-day arithmetic is specified. -/
structure SRFlashcard where
  id : String
  question : String
  answer : String
  easeFactor : ℚ
  interval : ℤ
  dueDay : ℤ

/-- Modelled from the spec: the scheduler operation
`review(card, grade) → updated card` of §4.2 is missing from the source (the
repository only declares the `SRFlashcard` shape), so it is reconstructed
here with the spec's stated constants. `Again`: interval resets to 1 day and
the ease factor drops by 0.2, floored at 1.3. `Hard`: interval grows ×1.2
(at least previous + 1) and ease drops by 0.15, floored at 1.3. `Good`:
interval becomes `round(previous × ease)`, at least 1; ease unchanged.
`Easy`: interval becomes `round(previous × ease × 1.3)`, at least 1, and ease
gains 0.15. The new due date is the caller-supplied grading day plus the new
interval. -/
def review (card : SRFlashcard) (grade : Grade) (today : ℤ) : SRFlashcard :=
  match grade with
  | .again =>
      { card with
        interval := 1,
        easeFactor := max (13 / 10) (card.easeFactor - 1 / 5),
        dueDay := today + 1 }
  | .hard =>
      let newInterval : ℤ :=
        max (card.interval + 1) (round ((6 / 5 : ℚ) * card.interval))
      { card with
        interval := newInterval,
        easeFactor := max (13 / 10) (card.easeFactor - 3 / 20),
        dueDay := today + newInterval }
  | .good =>
      let newInterval : ℤ :=
        max 1 (round (card.easeFactor * card.interval))
      { card with interval := newInterval, dueDay := today + newInterval }
  | .easy =>
      let newInterval : ℤ :=
        max 1 (round (card.easeFactor * (13 / 10) * card.interval))
      { card with
        interval := newInterval,
        easeFactor := card.easeFactor + 3 / 20,
        dueDay := today + newInterval }

/-- Modelled from the spec: an MCQ value is well-formed when its `options`
field is an array of exactly 4 strings of which exactly one equals the
`correctAnswer` field ("ordered set of options (size 4, one matching
correctAnswer exactly)"). The client never runs such a check; it is stated
here only to compare the returned values against the spec's shape. -/
def mcqWellFormed (v : Json) : Bool :=
  match v.getField "options", v.getField "correctAnswer" with
  | some (.arr opts), some (.str ans) =>
      decide (opts.length = 4) &&
      opts.all (fun o => match o with | .str _ => true | _ => false) &&
      decide ((opts.countP (fun o =>
        match o with | .str s => decide (s = ans) | _ => false)) = 1)
  | _, _ => false

/-! ## Helper lemmas shared by the claim theorems -/

lemma generateWithSchema_success_eq (schema : Schema) (context text : String)
    (v : Json) (h : parseJson (jsTrim text) = some v) :
    generateWithSchema schema context (.success text) = .ok v := by
  simp [generateWithSchema, h]

lemma generateWithSchema_parse_failure_eq (schema : Schema)
    (context text : String) (h : parseJson (jsTrim text) = none) :
    generateWithSchema schema context (.success text) =
      .error (.malformedResponse
        ("The API returned an invalid format for " ++ context ++
          ". Please try again.")
        (jsTrim text)) := by
  simp [generateWithSchema, h]

lemma generateFlashcards_success_eq (text : String) (v : Json)
    (h : parseJson (jsTrim text) = some v) :
    generateFlashcards (.success text) =
      .ok (unwrapListResult v "flashcards") := by
  simp [generateFlashcards, generateWithSchema_success_eq _ _ _ _ h]

lemma generateMCQs_success_eq (text : String) (v : Json)
    (h : parseJson (jsTrim text) = some v) :
    generateMCQs (.success text) = .ok (unwrapListResult v "mcqs") := by
  simp [generateMCQs, generateWithSchema_success_eq _ _ _ _ h]

lemma performSemanticSearch_success_eq (text : String) (v : Json)
    (h : parseJson (jsTrim text) = some v) :
    performSemanticSearch (.success text) =
      .ok (match v.getField "snippets" with
        | some w => if w.isTruthy then w else .arr []
        | none => .arr []) := by
  simp [performSemanticSearch, generateWithSchema_success_eq _ _ _ _ h]

lemma unwrapListResult_arr (xs : List Json) (field : String) :
    unwrapListResult (.arr xs) field = .arr xs := rfl

lemma unwrapListResult_field_truthy (v w : Json) (field : String)
    (h1 : v.isArr = false) (h2 : v.getField field = some w)
    (h3 : w.isTruthy = true) : unwrapListResult v field = w := by
  simp [unwrapListResult, h1, h2, h3]

lemma unwrapListResult_default (v : Json) (field : String)
    (h1 : v.isArr = false)
    (h2 : v.getField field = none ∨
      ∃ w, v.getField field = some w ∧ w.isTruthy = false) :
    unwrapListResult v field = .arr [] := by
  rcases h2 with h2 | ⟨w, h2, h3⟩
  · simp [unwrapListResult, h1, h2]
  · simp [unwrapListResult, h1, h2, h3]

/-! ## The claims -/

/-- C3 (confirmed): on a structured call that succeeds at the network level,
the response text is trimmed and then JSON-decoded; when decoding fails, the
call rejects with a `malformedResponse` whose message names the calling
feature and does not depend on the response text — the offending raw
(trimmed) text is retained only in the error's logged `rawText` field. -/
theorem malformed_response_names_feature (schema : Schema)
    (context text : String) (h : parseJson (jsTrim text) = none) :
    generateWithSchema schema context (.success text) =
      .error (.malformedResponse
        ("The API returned an invalid format for " ++ context ++
          ". Please try again.")
        (jsTrim text)) :=
  generateWithSchema_parse_failure_eq schema context text h

/-- Witness for C3 at a concrete non-JSON response. -/
theorem malformed_response_names_feature_witness :
    generateWithSchema flashcardSchema "flashcard generation"
      (.success "  not json  ") =
      .error (.malformedResponse
        ("The API returned an invalid format for " ++ "flashcard generation"
          ++ ". Please try again.")
        (jsTrim "  not json  ")) :=
  malformed_response_names_feature flashcardSchema "flashcard generation"
    "  not json  " rfl

/-- C7 (confirmed): a failed remote call is re-signaled as a `backendError`
whose message wraps the remote error's message behind a fixed prefix carrying
the calling feature's context (`API Error during <context>: <message>`);
when the call succeeds but decoding fails, the error is a
`malformedResponse`, a kind distinct from `backendError`. -/
theorem error_taxonomy (schema : Schema) (context remoteMsg text : String)
    (h : parseJson (jsTrim text) = none) :
    generateWithSchema schema context (.failure (some remoteMsg)) =
      .error (.backendError
        ("API Error during " ++ context ++ ": " ++ remoteMsg)) ∧
    (∃ message rawText,
      generateWithSchema schema context (.success text) =
        .error (.malformedResponse message rawText)) ∧
    (∀ m raw m2, GenError.malformedResponse m raw ≠ GenError.backendError m2) := by
  refine ⟨rfl,
    ⟨_, _, generateWithSchema_parse_failure_eq schema context text h⟩,
    fun m raw m2 hc => GenError.noConfusion hc⟩

/-- Witness for C7 at a concrete failed call and a concrete bad decode. -/
theorem error_taxonomy_witness :
    generateWithSchema flashcardSchema "flashcard generation"
      (.failure (some "quota exceeded")) =
      .error (.backendError
        ("API Error during " ++ "flashcard generation" ++ ": " ++
          "quota exceeded")) ∧
    (∃ message rawText,
      generateWithSchema flashcardSchema "flashcard generation"
        (.success "oops") =
        .error (.malformedResponse message rawText)) ∧
    (∀ m raw m2,
      GenError.malformedResponse m raw ≠ GenError.backendError m2) :=
  error_taxonomy flashcardSchema "flashcard generation" "quota exceeded"
    "oops" rfl

/-- C2 counterexample: with the flashcard schema declared (an array of
question/answer string objects), the backend response `5` decodes and is
returned as-is, so the client returns a value that violates the declared
shape — no client-side validation happens. -/
theorem generateWithSchema_returns_nonconforming_value :
    generateWithSchema flashcardSchema "flashcard generation" (.success "5") =
      .ok (.num 5) ∧
    conformsTo (.num 5) flashcardSchema = false :=
  ⟨rfl, rfl⟩

/-- C2 (amended): `generateWithSchema` either returns the fully JSON-decoded
value — performing no client-side validation against the declared schema,
which only travels outward with the request (the result does not depend on
it), so the value returned may violate the declared shape — or rejects with
exactly one of the two classified error kinds; decoding is all-or-nothing. -/
theorem generateWithSchema_classified (schema1 schema2 : Schema)
    (context : String) (response : BackendOutcome) :
    (∀ text v, response = .success text → parseJson (jsTrim text) = some v →
      generateWithSchema schema1 context response = .ok v) ∧
    generateWithSchema schema1 context response =
      generateWithSchema schema2 context response ∧
    ((∃ v, generateWithSchema schema1 context response = .ok v) ∨
     (∃ m, generateWithSchema schema1 context response =
        .error (.backendError m)) ∨
     (∃ m raw, generateWithSchema schema1 context response =
        .error (.malformedResponse m raw))) := by
  refine ⟨?_, ?_, ?_⟩
  · rintro text v rfl hv
    exact generateWithSchema_success_eq _ _ _ _ hv
  · cases response with
    | failure error => rfl
    | success text =>
        cases hp : parseJson (jsTrim text) with
        | none =>
            rw [generateWithSchema_parse_failure_eq _ _ _ hp,
              generateWithSchema_parse_failure_eq _ _ _ hp]
        | some v =>
            rw [generateWithSchema_success_eq _ _ _ _ hp,
              generateWithSchema_success_eq _ _ _ _ hp]
  · cases response with
    | failure error =>
        cases error with
        | none => exact .inr (.inl ⟨_, rfl⟩)
        | some msg => exact .inr (.inl ⟨_, rfl⟩)
    | success text =>
        cases hp : parseJson (jsTrim text) with
        | none =>
            exact .inr (.inr ⟨_, _,
              generateWithSchema_parse_failure_eq _ _ _ hp⟩)
        | some v => exact .inl ⟨_, generateWithSchema_success_eq _ _ _ _ hp⟩

/-- C10 (confirmed): when a concept-map response decodes to a falsy JSON
value (`null`, `false`, `0` or the empty string), both concept-map entry
points return the empty concept map `{nodes: [], links: []}` instead of an
error. -/
theorem conceptMap_falsy_default (text topic : String) (v : Json)
    (hparse : parseJson (jsTrim text) = some v) (hfalsy : v.isTruthy = false) :
    generateConceptMapData (.success text) =
      .ok (.obj [("nodes", .arr []), ("links", .arr [])]) ∧
    generateConceptMapForTopic topic (.success text) =
      .ok (.obj [("nodes", .arr []), ("links", .arr [])]) := by
  constructor
  · simp [generateConceptMapData, generateWithSchema_success_eq _ _ _ _ hparse,
      hfalsy, emptyConceptMap]
  · simp [generateConceptMapForTopic,
      generateWithSchema_success_eq _ _ _ _ hparse, hfalsy, emptyConceptMap]

/-- Witness for C10: a backend response of `null`. -/
theorem conceptMap_falsy_default_witness :
    generateConceptMapData (.success "null") =
      .ok (.obj [("nodes", .arr []), ("links", .arr [])]) ∧
    generateConceptMapForTopic "Biology" (.success "null") =
      .ok (.obj [("nodes", .arr []), ("links", .arr [])]) :=
  conceptMap_falsy_default "null" "Biology" .null rfl rfl

/-- C1 counterexample: the backend response `{"foo": 1}` decodes to an object
that is neither an array nor a wrapper carrying the expected `flashcards`
key; the claim says such a value is returned as-is, but `generateFlashcards`
returns the empty array instead of the decoded object. -/
theorem generateFlashcards_other_value_not_returned_as_is :
    parseJson (jsTrim "\x7b\"foo\": 1\x7d") =
      some (.obj [("foo", Json.num 1)]) ∧
    generateFlashcards (.success "\x7b\"foo\": 1\x7d") = .ok (.arr []) ∧
    Json.arr [] ≠ Json.obj [("foo", Json.num 1)] :=
  ⟨rfl, rfl, fun hc => Json.noConfusion hc⟩

/-- C1 (amended): for a flashcard/MCQ generation call whose (trimmed)
response text decodes to `v`: when `v` is an array it is returned directly;
when `v` is not an array but carries a truthy value under the pluralized
expected key (`flashcards` resp. `mcqs`) — whether or not that key is the
object's only one — that field's value is returned; any other decoded value
yields the empty array, not the value itself. -/
theorem generate_list_unwrap_cases (text : String) (v : Json)
    (hparse : parseJson (jsTrim text) = some v) :
    (∀ xs, v = .arr xs →
      generateFlashcards (.success text) = .ok (.arr xs) ∧
      generateMCQs (.success text) = .ok (.arr xs)) ∧
    (∀ w, v.isArr = false → v.getField "flashcards" = some w →
      w.isTruthy = true → generateFlashcards (.success text) = .ok w) ∧
    (∀ w, v.isArr = false → v.getField "mcqs" = some w →
      w.isTruthy = true → generateMCQs (.success text) = .ok w) ∧
    (v.isArr = false →
      (v.getField "flashcards" = none ∨
        ∃ w, v.getField "flashcards" = some w ∧ w.isTruthy = false) →
      generateFlashcards (.success text) = .ok (.arr [])) ∧
    (v.isArr = false →
      (v.getField "mcqs" = none ∨
        ∃ w, v.getField "mcqs" = some w ∧ w.isTruthy = false) →
      generateMCQs (.success text) = .ok (.arr [])) := by
  refine ⟨?_, ?_, ?_, ?_, ?_⟩
  · rintro xs rfl
    exact ⟨by rw [generateFlashcards_success_eq _ _ hparse,
        unwrapListResult_arr],
      by rw [generateMCQs_success_eq _ _ hparse, unwrapListResult_arr]⟩
  · intro w h1 h2 h3
    rw [generateFlashcards_success_eq _ _ hparse,
      unwrapListResult_field_truthy v w _ h1 h2 h3]
  · intro w h1 h2 h3
    rw [generateMCQs_success_eq _ _ hparse,
      unwrapListResult_field_truthy v w _ h1 h2 h3]
  · intro h1 h2
    rw [generateFlashcards_success_eq _ _ hparse,
      unwrapListResult_default v _ h1 h2]
  · intro h1 h2
    rw [generateMCQs_success_eq _ _ hparse,
      unwrapListResult_default v _ h1 h2]

/-- Witness for the amended C1: a `flashcards` wrapper object is unwrapped. -/
theorem generate_list_unwrap_cases_witness :
    generateFlashcards (.success "\x7b\"flashcards\": [1]\x7d") =
      .ok (.arr [.num 1]) :=
  (generate_list_unwrap_cases "\x7b\"flashcards\": [1]\x7d"
      (.obj [("flashcards", .arr [.num 1])]) rfl).2.1
    (.arr [.num 1]) rfl rfl rfl

/-- C4 (confirmed): when the decoded response is not an array and the
expected unwrapping field is absent — in particular whenever the decoded
value is `null`, which is not an array and has no fields — search, flashcard
and MCQ generation each return the empty array rather than an error. -/
theorem lenient_empty_default (text : String) (v : Json)
    (hparse : parseJson (jsTrim text) = some v) (harr : v.isArr = false) :
    (v.getField "snippets" = none →
      performSemanticSearch (.success text) = .ok (.arr [])) ∧
    (v.getField "flashcards" = none →
      generateFlashcards (.success text) = .ok (.arr [])) ∧
    (v.getField "mcqs" = none →
      generateMCQs (.success text) = .ok (.arr [])) := by
  refine ⟨?_, ?_, ?_⟩
  · intro h
    rw [performSemanticSearch_success_eq _ _ hparse, h]
  · intro h
    rw [generateFlashcards_success_eq _ _ hparse,
      unwrapListResult_default v _ harr (Or.inl h)]
  · intro h
    rw [generateMCQs_success_eq _ _ hparse,
      unwrapListResult_default v _ harr (Or.inl h)]

/-- Witness for C4: a backend response of `null`. -/
theorem lenient_empty_default_witness :
    performSemanticSearch (.success "null") = .ok (.arr []) ∧
    generateFlashcards (.success "null") = .ok (.arr []) ∧
    generateMCQs (.success "null") = .ok (.arr []) := by
  have h := lenient_empty_default "null" .null rfl rfl
  exact ⟨h.1 rfl, h.2.1 rfl, h.2.2 rfl⟩

/-- C5 (confirmed): the updated search history starts with the new query,
never exceeds 10 entries, contains no entry other than the front one equal
to the new query up to case-insensitive comparison, and lists the surviving
previous entries in their original relative order (the tail is a sublist of
the starting history). -/
theorem updateSearchHistory_invariants (q : String) (h : List String) :
    (updateSearchHistory q h).head? = some q ∧
    (updateSearchHistory q h).length ≤ 10 ∧
    (updateSearchHistory q h).tail.all
      (fun item => item.toLower ≠ q.toLower) = true ∧
    (updateSearchHistory q h).tail.Sublist h := by
  have e : updateSearchHistory q h =
      q :: (h.filter (fun item => item.toLower ≠ q.toLower)).take 9 := rfl
  refine ⟨by rw [e]; rfl, ?_, ?_, ?_⟩
  · rw [e]
    simp only [List.length_cons, List.length_take]
    omega
  · rw [e]
    simp only [List.tail_cons, List.all_eq_true]
    intro x hx
    exact (List.mem_filter.mp ((List.take_sublist 9 _).mem hx)).2
  · rw [e]
    simp only [List.tail_cons]
    exact (List.take_sublist 9 _).trans (List.filter_sublist h)

/-- C6 counterexample: a semantic search whose backend call fails still
changes the feature's persisted state — starting from the initial component
state, a failed search for `foo` leaves the attempted query in the search
history and in its `localStorage` copy, although the claim says a failed
search leaves the search history unchanged. -/
theorem runSearch_failed_search_changes_history :
    (runSearch (some "ingested text") (.failure (some "network down")) "foo"
      initialSearchState).searchHistory = ["foo"] ∧
    (runSearch (some "ingested text") (.failure (some "network down")) "foo"
      initialSearchState).storedHistory = some ["foo"] ∧
    initialSearchState.searchHistory = [] ∧
    initialSearchState.storedHistory = none :=
  ⟨rfl, rfl, rfl, rfl⟩

/-- C6 (amended): when a search's generation call fails — with either error
kind, a backend failure or a malformed response — the caller surfaces the
error's message as a notification and commits no results; but the search
history and its persisted copy have already been updated with the attempted
query before the backend call, so a failed search does change them. -/
theorem runSearch_failure_updates (t : String) (ht : ¬ t = "")
    (response : BackendOutcome) (e : GenError)
    (hfail : performSemanticSearch response = .error e)
    (q : String) (hq : ¬ jsTrim q = "") (s : SearchState) :
    runSearch (some t) response q s =
      { s with
        isLoading := false,
        searchAttempted := true,
        results := Json.arr [],
        searchHistory := updateSearchHistory q s.searchHistory,
        storedHistory := some (updateSearchHistory q s.searchHistory),
        notifications := s.notifications ++ [e.message] } := by
  unfold runSearch
  rw [Option.getD_some, if_neg ht, if_neg hq, hfail]

/-- Witness for the amended C6: one concrete failed search of each error
kind — a backend failure, and a successful call whose text does not parse. -/
theorem runSearch_failure_updates_witness :
    runSearch (some "ingested") (.failure (some "boom")) "foo"
      initialSearchState =
      { initialSearchState with
        isLoading := false,
        searchAttempted := true,
        results := Json.arr [],
        searchHistory :=
          updateSearchHistory "foo" initialSearchState.searchHistory,
        storedHistory :=
          some (updateSearchHistory "foo" initialSearchState.searchHistory),
        notifications := initialSearchState.notifications ++
          [(GenError.backendError
            ("API Error during " ++ "semantic search" ++ ": " ++
              "boom")).message] } ∧
    runSearch (some "ingested") (.success "not json") "foo"
      initialSearchState =
      { initialSearchState with
        isLoading := false,
        searchAttempted := true,
        results := Json.arr [],
        searchHistory :=
          updateSearchHistory "foo" initialSearchState.searchHistory,
        storedHistory :=
          some (updateSearchHistory "foo" initialSearchState.searchHistory),
        notifications := initialSearchState.notifications ++
          [(GenError.malformedResponse
            ("The API returned an invalid format for " ++ "semantic search"
              ++ ". Please try again.") "not json").message] } :=
  ⟨runSearch_failure_updates "ingested" (by decide) (.failure (some "boom"))
      (.backendError
        ("API Error during " ++ "semantic search" ++ ": " ++ "boom"))
      rfl "foo" (by decide) initialSearchState,
    runSearch_failure_updates "ingested" (by decide) (.success "not json")
      (.malformedResponse
        ("The API returned an invalid format for " ++ "semantic search" ++
          ". Please try again.") "not json")
      rfl "foo" (by decide) initialSearchState⟩

/-- C8 counterexample: a backend response whose single MCQ has only two
options, neither equal to `correctAnswer`, is returned by `generateMCQs`
unchanged — the returned MCQ value does not have an options array of exactly
4 strings with exactly one matching `correctAnswer`. -/
theorem generateMCQs_returns_illformed_mcq :
    generateMCQs (.success
      "[\x7b\"question\":\"q\",\"options\":[\"a\",\"b\"],\"correctAnswer\":\"c\",\"explanation\":\"e\"\x7d]") =
      .ok (.arr [.obj [("question", .str "q"),
        ("options", .arr [.str "a", .str "b"]),
        ("correctAnswer", .str "c"), ("explanation", .str "e")]]) ∧
    mcqWellFormed (.obj [("question", .str "q"),
        ("options", .arr [.str "a", .str "b"]),
        ("correctAnswer", .str "c"), ("explanation", .str "e")]) = false :=
  ⟨rfl, rfl⟩

/-- C8 (amended): MCQ generation returns the decoded array without any
validation of its elements — the declared schema constrains `options` only
to be a string array of unconstrained length, and the 4-options /
one-matching-correct-answer shape is requested from the backend in the
prompt but never enforced by the client. -/
theorem generateMCQs_passthrough (text : String) (xs : List Json)
    (h : parseJson (jsTrim text) = some (.arr xs)) :
    generateMCQs (.success text) = .ok (.arr xs) := by
  rw [generateMCQs_success_eq _ _ h, unwrapListResult_arr]

/-- Witness for the amended C8: an empty MCQ array passes through. -/
theorem generateMCQs_passthrough_witness :
    generateMCQs (.success "[]") = .ok (.arr []) :=
  generateMCQs_passthrough "[]" [] rfl

/-- C9 (confirmed, against the spec-modelled scheduler): grading `Again`
resets the interval to the minimum unit of 1 day (due the next day), lowers
the ease factor by the fixed penalty 0.2 clamped at the floor 1.3, and under
any number of further `Again` grades the ease factor never falls below
1.3. -/
theorem review_again_resets_and_clamps (card : SRFlashcard) (today : ℤ) :
    (review card .again today).interval = 1 ∧
    (review card .again today).dueDay = today + 1 ∧
    (review card .again today).easeFactor =
      max (13 / 10) (card.easeFactor - 1 / 5) ∧
    ∀ n : ℕ, (13 : ℚ) / 10 ≤
      ((fun c => review c .again today)^[n]
        (review card .again today)).easeFactor := by
  refine ⟨rfl, rfl, rfl, ?_⟩
  intro n
  cases n with
  | zero => exact le_max_left _ _
  | succ m =>
      rw [Function.iterate_succ_apply']
      exact le_max_left _ _
